import Mathlib

/-!
Verification of the CNH monitor core (src/cnh_monitor.py): data acquisition
with fallback, derived-metric computation, and risk classification.

Numeric quote values are modelled as rationals (ℚ); the Python code performs
its arithmetic on floats, and every property stated here is about the exact
arithmetic the expressions denote.  Python truthiness on a numeric value
(`if cnh and cny:`) is modelled as a `≠ 0` test; truthiness of an optional
value (`if sh_gold:`) is "present and nonzero".  Network effects are modelled
by passing the outcome of each HTTP interaction as an explicit argument.
-/

namespace CnhMonitor

/-- The four batch rates returned by `get_yahoo_data` when it succeeds
(keys `cny`, `cnh`, `hkd`, `gold_intl` of the `final_data` dict); by
construction of the function all four are present in a returned dict. -/
structure YahooData where
  cny : ℚ
  cnh : ℚ
  hkd : ℚ
  gold_intl : ℚ
deriving Repr, DecidableEq

/-- The per-ticker columns of the batched `yf.download` response: for each of
the four tickers, the window of Close bars, each bar either a value or
missing (NaN).  The column-name fallback search in the source resolves a
ticker to the same bar series, so it is folded into the bars list. -/
structure BatchResponse where
  cnyBars : List (Option ℚ)
  cnhBars : List (Option ℚ)
  hkdBars : List (Option ℚ)
  goldBars : List (Option ℚ)
deriving Repr, DecidableEq

/-- Outcome of the batched download: the request as a whole may raise
(caught by the outer `except`), or deliver a `BatchResponse`. -/
inductive YahooOutcome where
  | err : YahooOutcome
  | ok : BatchResponse → YahooOutcome
deriving Repr, DecidableEq

/-- `df_close[t].dropna().iloc[-1]`: the last non-missing value of a bar
series; `none` when every bar is missing (the `iloc[-1]` IndexError is caught
and the ticker resolves to None). -/
def lastValid (bars : List (Option ℚ)) : Option ℚ :=
  (bars.filterMap id).getLast?

/-- `get_yahoo_data`: resolve each of the four tickers to its last
non-missing bar; if the download raised, or any of the four resolves to
None, return None (`if None in final_data.values(): return None`). -/
def get_yahoo_data : YahooOutcome → Option YahooData
  | .err => none
  | .ok r =>
    match lastValid r.cnyBars, lastValid r.cnhBars,
          lastValid r.hkdBars, lastValid r.goldBars with
    | some cny, some cnh, some hkd, some gold => some ⟨cny, cnh, hkd, gold⟩
    | _, _, _, _ => none

/-- The dict returned by `calculate_metrics` (the `timestamp` field, a
wall-clock read, is omitted). -/
structure Metrics where
  cny : ℚ
  cnh : ℚ
  hkd : ℚ
  spread : ℚ
  gold_intl_usd : ℚ
  sh_gold : Option ℚ
  gold_premium : ℚ
  usdt_cny : Option ℚ
  usdt_premium : ℚ
deriving Repr, DecidableEq

/-- `calculate_metrics(yahoo_data, sh_gold, usdt_cny)`.  The guards
`if cnh and cny:`, `if gold_intl_usd and cny:`, `if sh_gold:` and
`if usdt_cny and cnh:` are Python truthiness tests: a numeric operand passes
iff it is nonzero, an optional operand iff it is present and nonzero. -/
def calculate_metrics (yahoo_data : Option YahooData)
    (sh_gold usdt_cny : Option ℚ) : Option Metrics :=
  match yahoo_data with
  | none => none
  | some y =>
    let cny := y.cny
    let cnh := y.cnh
    let spread := if cnh ≠ 0 ∧ cny ≠ 0 then (cnh - cny) * 10000 else 0
    let gold_premium :=
      if y.gold_intl ≠ 0 ∧ cny ≠ 0 then
        match sh_gold with
        | some g => if g ≠ 0 then g / cny * 31.1035 - y.gold_intl else 0
        | none => 0
      else 0
    let usdt_premium :=
      match usdt_cny with
      | some u => if u ≠ 0 ∧ cnh ≠ 0 then (u - cnh) / cnh * 100 else 0
      | none => 0
    some { cny := cny, cnh := cnh, hkd := y.hkd, spread := spread,
           gold_intl_usd := y.gold_intl, sh_gold := sh_gold,
           gold_premium := gold_premium, usdt_cny := usdt_cny,
           usdt_premium := usdt_premium }

/-- A risk report as built by `analyze_risk`: level string, advisory
message, display color. -/
structure RiskReport where
  level : String
  msg : String
  color : String
deriving Repr, DecidableEq

/-- The default report (indicators stable). -/
def normalReport : RiskReport :=
  { level := "normal", msg := "目前指標平穩，維持觀望。", color := "green" }

/-- The liquidity-squeeze report (HIBOR squeeze branch): emergency exit,
rendered purple by `main`. -/
def hiborSqueezeReport : RiskReport :=
  { level := "critical",
    msg := "⚠️ 緊急撤退 (Emergency Exit)：偵測到流動性夾殺 (HIBOR 飆高)，央行暴力干預中。停止做空，保留現金。",
    color := "purple" }

/-- The breakout report (offshore rate above 7.35 with spread above 1000),
rendered red by `main`. -/
def breakoutReport : RiskReport :=
  { level := "critical",
    msg := "🔥 全力行動 (Full Action)：匯率突破 7.35 且價差失控 (>1000點)。趨勢確立，分批轉移資產。",
    color := "red" }

/-- The high-alert report, rendered orange by `main`. -/
def warningReport : RiskReport :=
  { level := "warning",
    msg := "🛡️ 高度警戒 (High Alert)：偵測到聰明錢外逃或做空壓力增加。密切監控 7.35 關卡。",
    color := "orange" }

/-- `analyze_risk(metrics, hibor_val)`: the priority chain of rules.
`hibor_val is not None and hibor_val > 10` is modelled by the match on the
optional hibor value. -/
def analyze_risk (metrics : Option Metrics) (hibor_val : Option ℚ) :
    RiskReport :=
  match metrics with
  | none => normalReport
  | some m =>
    let is_spread_high := decide (m.spread > 500)
    let is_spread_critical := decide (m.spread > 1000)
    let is_cnh_breakout := decide (m.cnh > 7.35)
    let is_capital_flight :=
      decide (m.gold_premium > 30) || decide (m.usdt_premium > 2.0)
    let is_hibor_squeeze :=
      match hibor_val with
      | some h => decide (h > 10)
      | none => false
    if is_hibor_squeeze then hiborSqueezeReport
    else if is_cnh_breakout && is_spread_critical then breakoutReport
    else if is_spread_high || is_capital_flight then warningReport
    else normalReport

/-- The abstract four-point risk scale of the design.  The concrete code
distinguishes its four reports by color tag (the rendering in `main`
dispatches on `risk['color']`: red, orange, purple, else green); the purple
liquidity-squeeze report realizes the `critical-liquidity` level. -/
inductive RiskLevel where
  | normal : RiskLevel
  | warning : RiskLevel
  | critical : RiskLevel
  | criticalLiquidity : RiskLevel
deriving Repr, DecidableEq

/-- Map a concrete report to its abstract level via its color tag. -/
def reportLevel (r : RiskReport) : RiskLevel :=
  if r.color = "red" then .critical
  else if r.color = "orange" then .warning
  else if r.color = "purple" then .criticalLiquidity
  else .normal

/-- `get_cnh_hibor`: the funding-cost source is a stub that always returns
None. -/
def get_cnh_hibor : Option ℚ := none

/-- The default applied in `main`: `hibor_val_for_logic = hibor if hibor
else 2.5` (Python truthiness: a present zero also falls back to 2.5). -/
def hibor_val_for_logic (hibor : Option ℚ) : ℚ :=
  match hibor with
  | some h => if h ≠ 0 then h else 2.5
  | none => 2.5

/-- Outcome of one HTTP interaction: a transport error or timeout (any
`requests` exception), or a response with a status code and a payload. -/
inductive HttpResult (α : Type) where
  | transportError : HttpResult α
  | response : Nat → α → HttpResult α
deriving Repr, DecidableEq

/-- One `<tr>` of the scraped jinjia.vip page: whether the row text contains
the marker `"Au99.99"` or `"Au9999"`, and each `<td>` cell's `float(...)`
parse result (`none` when `float` raises ValueError). -/
structure HtmlRow where
  hasMarker : Bool
  cols : List (Option ℚ)
deriving Repr, DecidableEq

/-- The inner cell loop of `get_shanghai_gold`: scan the cells of a marker
row, returning the first parsed value strictly inside the 400–1000 sanity
range; unparsable cells and out-of-range values are skipped. -/
def scanCols : List (Option ℚ) → Option ℚ
  | [] => none
  | none :: rest => scanCols rest
  | some v :: rest => if 400 < v ∧ v < 1000 then some v else scanCols rest

/-- The row loop of `get_shanghai_gold`: scan every row, and within each
marker row scan its cells; the first passing cell value anywhere is
returned. -/
def scanRows : List HtmlRow → Option ℚ
  | [] => none
  | row :: rest =>
    if row.hasMarker then
      match scanCols row.cols with
      | some v => some v
      | none => scanRows rest
    else scanRows rest

/-- `get_shanghai_gold`: scrape the jinjia.vip table.  A transport error or
a non-200 status yields None; a 200 response is scanned row by row; if no
cell passes, the function falls through to `return None`. -/
def get_shanghai_gold (resp : HttpResult (List HtmlRow)) : Option ℚ :=
  match resp with
  | .transportError => none
  | .response status rows => if status = 200 then scanRows rows else none

/-- Parse outcome of the Binance P2P response body: JSON decoding, the
`data` key lookup, or `float(...[0]['adv']['price'])` may fail (malformed),
or the body yields the list of advertisement prices in provider order. -/
inductive BinancePayload where
  | malformed : BinancePayload
  | advs : List ℚ → BinancePayload
deriving Repr, DecidableEq

/-- `get_binance_usdt_cny`: POST the search request; on a 200 response with
a well-formed non-empty `data` list return the first advertisement's price;
every other outcome (transport error, non-200, malformed body, empty list)
yields None. -/
def get_binance_usdt_cny (resp : HttpResult BinancePayload) : Option ℚ :=
  match resp with
  | .transportError => none
  | .response status p =>
    if status = 200 then
      match p with
      | .malformed => none
      | .advs prices => prices.head?
    else none

/-- The Shanghai-gold sanity range: the value must lie strictly between 400
and 1000 CNY/gram. -/
def plausGold (v : ℚ) : Bool := decide (400 < v ∧ v < 1000)

/-- Modelled from the spec: a FallbackChain tries an ordered list of source
results and returns the first present result that passes the signal's
sanity-range filter; an absent or implausible result moves on to the next
source, and an exhausted chain returns absent. -/
def fallbackChain (plaus : ℚ → Bool) : List (Option ℚ) → Option ℚ
  | [] => none
  | none :: rest => fallbackChain plaus rest
  | some v :: rest => if plaus v then some v else fallbackChain plaus rest

/-- Modelled from the spec: the first Shanghai-gold source, a market-data
API returning a comma-delimited quote string, is present only in repository
revisions not included under src/.  Its payload parses to the list of
fields; field 0 is the latest price, and when field 0 is exactly zero the
source falls back to field 7, the previous close.  Transport errors,
non-200 statuses and missing fields yield absent. -/
def commaSource (resp : HttpResult (List ℚ)) : Option ℚ :=
  match resp with
  | .transportError => none
  | .response status fields =>
    if status = 200 then
      match fields.get? 0 with
      | some f0 => if f0 = 0 then fields.get? 7 else some f0
      | none => none
    else none

/-- Modelled from the spec: the second Shanghai-gold source, an API
returning a tilde-delimited quote string with the price at a fixed field
offset, is present only in repository revisions not included under src/. -/
def tildeSource (offset : Nat) (resp : HttpResult (List ℚ)) : Option ℚ :=
  match resp with
  | .transportError => none
  | .response status fields =>
    if status = 200 then fields.get? offset else none

/-- Modelled from the spec: the three-source Shanghai-gold fallback chain —
comma-delimited API, tilde-delimited API, HTML scan — in priority order,
each source's result subjected independently to the same sanity-range
filter, the first passing result returned.  Only the third source (the HTML
scan `get_shanghai_gold`) appears under src/; the chain itself and the
first two sources are modelled from the spec.  The HTML scan already
filters internally, so re-applying the filter to it is idempotent. -/
def shanghai_gold_chain (offset : Nat) (r1 r2 : HttpResult (List ℚ))
    (r3 : HttpResult (List HtmlRow)) : Option ℚ :=
  fallbackChain plausGold
    [commaSource r1, tildeSource offset r2, get_shanghai_gold r3]

/-- The snapshot cache state: at most one entry, the cached bundle and its
fetch timestamp. -/
structure SnapshotCache where
  entry : Option (YahooData × ℚ)
deriving Repr, DecidableEq

/-- Modelled from the spec: the TTL memoization of the acquisition step is
implemented by streamlit's `st.cache_data(ttl=60)` decorator, not by code
under src/.  On call, a cached bundle younger than `ttl` is returned
unchanged with no fetch; otherwise the fetch function is invoked exactly
once: on success the cached bundle and timestamp are replaced atomically,
on failure the cache is left empty and the failure surfaced.  The returned
Bool records whether a fresh fetch was performed. -/
def getOrFetch (fetchFn : Option YahooData) (ttl now : ℚ)
    (c : SnapshotCache) : Option YahooData × SnapshotCache × Bool :=
  match c.entry with
  | some (b, t) =>
    if now - t < ttl then (some b, c, false)
    else
      match fetchFn with
      | some b' => (some b', ⟨some (b', now)⟩, true)
      | none => (none, ⟨none⟩, true)
  | none =>
    match fetchFn with
    | some b' => (some b', ⟨some (b', now)⟩, true)
    | none => (none, ⟨none⟩, true)

/-- Modelled from the spec: the explicit cache clear
(`st.cache_data.clear()` behind the refresh button in `main`) empties the
cache regardless of age. -/
def invalidate (_c : SnapshotCache) : SnapshotCache := ⟨none⟩

/-- The cache TTL used in the source: 60 seconds. -/
def cacheTTL : ℚ := 60

/-- A value returned by the cell scan lies strictly inside the 400–1000
sanity range. -/
theorem scanCols_range (cs : List (Option ℚ)) (v : ℚ)
    (h : scanCols cs = some v) : 400 < v ∧ v < 1000 := by
  induction cs with
  | nil => simp [scanCols] at h
  | cons c rest ih =>
    cases c with
    | none => exact ih (by simpa [scanCols] using h)
    | some w =>
      simp only [scanCols] at h
      split at h
      · rename_i hw
        injection h with h
        subst h
        exact hw
      · exact ih h

/-- When no cell of the list parses to an in-range value, the cell scan
yields none. -/
theorem scanCols_none (cs : List (Option ℚ))
    (h : ∀ c ∈ cs, ∀ w, c = some w → ¬(400 < w ∧ w < 1000)) :
    scanCols cs = none := by
  induction cs with
  | nil => rfl
  | cons c rest ih =>
    have hrest : ∀ x ∈ rest, ∀ w, x = some w → ¬(400 < w ∧ w < 1000) :=
      fun x hx => h x (List.mem_cons_of_mem _ hx)
    cases c with
    | none => simpa [scanCols] using ih hrest
    | some w =>
      have hw := h (some w) (List.mem_cons_self _ _) w rfl
      simp only [scanCols, if_neg hw]
      exact ih hrest

/-- A value returned by the row scan lies strictly inside the 400–1000
sanity range. -/
theorem scanRows_range (rows : List HtmlRow) (v : ℚ)
    (h : scanRows rows = some v) : 400 < v ∧ v < 1000 := by
  induction rows with
  | nil => simp [scanRows] at h
  | cons row rest ih =>
    simp only [scanRows] at h
    split at h
    · rcases hsc : scanCols row.cols with _ | w
      · rw [hsc] at h
        exact ih h
      · rw [hsc] at h
        injection h with h
        subst h
        exact scanCols_range _ _ hsc
    · exact ih h

/-- When no cell of any row parses to an in-range value, the row scan
yields none. -/
theorem scanRows_none (rows : List HtmlRow)
    (h : ∀ row ∈ rows, ∀ c ∈ row.cols, ∀ w, c = some w → ¬(400 < w ∧ w < 1000)) :
    scanRows rows = none := by
  induction rows with
  | nil => rfl
  | cons row rest ih =>
    have hrest : ∀ r ∈ rest, ∀ c ∈ r.cols, ∀ w, c = some w → ¬(400 < w ∧ w < 1000) :=
      fun r hr => h r (List.mem_cons_of_mem _ hr)
    have hcols : scanCols row.cols = none :=
      scanCols_none _ (h row (List.mem_cons_self _ _))
    simp only [scanRows, hcols]
    split
    · exact ih hrest
    · exact ih hrest

/-- Any value the HTML fetch returns lies strictly inside the 400–1000
sanity range. -/
theorem get_shanghai_gold_range (resp : HttpResult (List HtmlRow)) (v : ℚ)
    (h : get_shanghai_gold resp = some v) : 400 < v ∧ v < 1000 := by
  cases resp with
  | transportError => cases h
  | response s rows =>
    simp only [get_shanghai_gold] at h
    split at h
    · exact scanRows_range rows v h
    · cases h

/-- A chain link that is absent or implausible is skipped. -/
theorem fallbackChain_skip (plaus : ℚ → Bool) (o : Option ℚ)
    (rest : List (Option ℚ)) (h : ∀ w, o = some w → plaus w = false) :
    fallbackChain plaus (o :: rest) = fallbackChain plaus rest := by
  cases o with
  | none => rfl
  | some w => simp [fallbackChain, h w rfl]

/-- A present, passing chain link is returned at once. -/
theorem fallbackChain_pass (plaus : ℚ → Bool) (v : ℚ)
    (rest : List (Option ℚ)) (h : plaus v = true) :
    fallbackChain plaus (some v :: rest) = some v := by
  simp [fallbackChain, h]

/-- C1: `analyze_risk` evaluates its rules in strict precedence — on every
metrics input where the funding-rate-squeeze condition (funding rate present
and above 10) and the breakout-plus-critical-spread condition (offshore rate
above 7.35 and spread above 1000) both hold, the result is the
liquidity-squeeze advisory (the purple report, realizing the
`critical-liquidity` level of the design's four-point scale), not the red
`critical` breakout report. -/
theorem analyze_risk_precedence (m : Metrics) (h : ℚ)
    (hgt : h > 10) (hbr : m.cnh > 7.35) (hsp : m.spread > 1000) :
    analyze_risk (some m) (some h) = hiborSqueezeReport ∧
    reportLevel (analyze_risk (some m) (some h)) = RiskLevel.criticalLiquidity ∧
    analyze_risk (some m) (some h) ≠ breakoutReport := by
  have key : analyze_risk (some m) (some h) = hiborSqueezeReport := by
    simp [analyze_risk, hgt]
  refine ⟨key, ?_, ?_⟩
  · rw [key]
    simp [reportLevel, hiborSqueezeReport]
  · rw [key]
    intro contra
    have hc := congrArg RiskReport.color contra
    simp [hiborSqueezeReport, breakoutReport] at hc

/-- Witness for `analyze_risk_precedence`: a concrete metrics input with
offshore rate 7.4, spread 3000, and funding rate 12. -/
theorem analyze_risk_precedence_witness :
    analyze_risk (some ⟨71/10, 37/5, 78/10, 3000, 2000, none, 0, none, 0⟩)
        (some 12) = hiborSqueezeReport ∧
    reportLevel (analyze_risk
        (some ⟨71/10, 37/5, 78/10, 3000, 2000, none, 0, none, 0⟩) (some 12))
      = RiskLevel.criticalLiquidity ∧
    analyze_risk (some ⟨71/10, 37/5, 78/10, 3000, 2000, none, 0, none, 0⟩)
        (some 12) ≠ breakoutReport :=
  analyze_risk_precedence ⟨71/10, 37/5, 78/10, 3000, 2000, none, 0, none, 0⟩
    12 (by norm_num) (by norm_num) (by norm_num)

/-- C2 (counterexample): the claim fails at a usable snapshot whose onshore
rate is present but zero — such a snapshot is even produced by
`get_yahoo_data` from a batch whose last valid CNY close is 0 — because the
truthiness guard `if cnh and cny:` treats the zero rate like an absent one
and defaults the spread to 0, while (offshore − onshore) × 10000 = 50000. -/
theorem spread_claim_counterexample :
    get_yahoo_data (.ok ⟨[some 0], [some 5], [some (39/5)], [some 2000]⟩)
        = some ⟨0, 5, 39/5, 2000⟩ ∧
    (calculate_metrics (some ⟨0, 5, 39/5, 2000⟩) none none).map Metrics.spread
        = some 0 ∧
    ((5 : ℚ) - 0) * 10000 ≠ 0 := by
  refine ⟨rfl, ?_, by norm_num⟩
  norm_num [calculate_metrics]

/-- C2 (amended): for every usable snapshot whose offshore and onshore rates
are both nonzero (Python-truthy), the computed spread equals
(offshore − onshore) × 10000 exactly, with the correct sign in both
directions; a zero rate makes the source default the spread to 0. -/
theorem spread_formula (y : YahooData) (sh_gold usdt_cny : Option ℚ)
    (h1 : y.cnh ≠ 0) (h2 : y.cny ≠ 0) :
    (calculate_metrics (some y) sh_gold usdt_cny).map Metrics.spread
      = some ((y.cnh - y.cny) * 10000) ∧
    (y.cny < y.cnh → 0 < (y.cnh - y.cny) * 10000) ∧
    (y.cnh < y.cny → (y.cnh - y.cny) * 10000 < 0) := by
  refine ⟨by simp [calculate_metrics, h1, h2], fun hlt => by nlinarith,
    fun hlt => by nlinarith⟩

/-- Witness for `spread_formula` at onshore 7.10, offshore 7.40. -/
theorem spread_formula_witness :
    (calculate_metrics (some ⟨71/10, 37/5, 78/10, 2000⟩) none none).map
        Metrics.spread = some (((37/5 : ℚ) - 71/10) * 10000) ∧
    0 < ((37/5 : ℚ) - 71/10) * 10000 :=
  ⟨(spread_formula ⟨71/10, 37/5, 78/10, 2000⟩ none none (by norm_num)
      (by norm_num)).1,
   (spread_formula ⟨71/10, 37/5, 78/10, 2000⟩ none none (by norm_num)
      (by norm_num)).2.1 (by norm_num)⟩

/-- C3: the batch fetch is all-or-nothing: a download error yields None; a
response resolves to a snapshot exactly when every one of the four tickers
has a last non-missing value, and the returned snapshot then carries exactly
those four resolved values — a partial snapshot is never returned. -/
theorem get_yahoo_data_all_or_nothing :
    get_yahoo_data .err = none ∧
    ∀ (r : BatchResponse),
      ((get_yahoo_data (.ok r)).isSome ↔
        ((lastValid r.cnyBars).isSome ∧ (lastValid r.cnhBars).isSome ∧
         (lastValid r.hkdBars).isSome ∧ (lastValid r.goldBars).isSome)) ∧
      ∀ (s : YahooData), get_yahoo_data (.ok r) = some s →
        lastValid r.cnyBars = some s.cny ∧ lastValid r.cnhBars = some s.cnh ∧
        lastValid r.hkdBars = some s.hkd ∧
        lastValid r.goldBars = some s.gold_intl := by
  refine ⟨rfl, fun r => ⟨?_, ?_⟩⟩
  · rcases h1 : lastValid r.cnyBars with _ | a <;>
    rcases h2 : lastValid r.cnhBars with _ | b <;>
    rcases h3 : lastValid r.hkdBars with _ | c <;>
    rcases h4 : lastValid r.goldBars with _ | d <;>
    simp [get_yahoo_data, h1, h2, h3, h4]
  · intro s hs
    rcases h1 : lastValid r.cnyBars with _ | a <;>
    rcases h2 : lastValid r.cnhBars with _ | b <;>
    rcases h3 : lastValid r.hkdBars with _ | c <;>
    rcases h4 : lastValid r.goldBars with _ | d <;>
    simp only [get_yahoo_data, h1, h2, h3, h4] at hs <;>
    cases hs <;>
    exact ⟨rfl, rfl, rfl, rfl⟩

/-- Witness for `get_yahoo_data_all_or_nothing`: a batch where every ticker
resolves, applied to the snapshot it produces. -/
theorem get_yahoo_data_all_or_nothing_witness :
    lastValid [some (71/10)] = some (71/10) ∧
    lastValid [some (37/5)] = some (37/5) ∧
    lastValid [some (78/10)] = some (78/10) ∧
    lastValid [some 2000] = some 2000 :=
  (get_yahoo_data_all_or_nothing.2
      ⟨[some (71/10)], [some (37/5)], [some (78/10)], [some 2000]⟩).2
    ⟨71/10, 37/5, 78/10, 2000⟩ rfl

/-- C4 (counterexample): the claim fails at a usable snapshot whose
international gold price is present but zero — such a snapshot is produced
by `get_yahoo_data` from a batch whose last valid GC=F close is 0 — because
the truthiness guard `if gold_intl_usd and cny:` skips the whole gold block
and leaves the premium at 0, while the claimed formula gives
650/7 × 31.1035 − 0 ≠ 0 for a present Shanghai gold price of 650. -/
theorem gold_premium_claim_counterexample :
    get_yahoo_data (.ok ⟨[some 7], [some (72/10)], [some (78/10)], [some 0]⟩)
        = some ⟨7, 72/10, 78/10, 0⟩ ∧
    (calculate_metrics (some ⟨7, 72/10, 78/10, 0⟩) (some 650) none).map
        Metrics.gold_premium = some 0 ∧
    (650 : ℚ) / 7 * 31.1035 - 0 ≠ 0 := by
  refine ⟨rfl, ?_, by norm_num⟩
  norm_num [calculate_metrics]

/-- C4 (amended): for every usable snapshot whose international gold price
and onshore rate are nonzero (Python-truthy), the gold premium equals
((shanghaiGoldPrice ÷ onshoreRMB) × 31.1035) − internationalGoldPrice when
the Shanghai gold price is present and nonzero, and is exactly 0 when it is
absent. -/
theorem gold_premium_formula :
    (∀ (y : YahooData) (g : ℚ) (usdt_cny : Option ℚ),
        y.gold_intl ≠ 0 → y.cny ≠ 0 → g ≠ 0 →
        (calculate_metrics (some y) (some g) usdt_cny).map Metrics.gold_premium
          = some (g / y.cny * 31.1035 - y.gold_intl)) ∧
    (∀ (y : YahooData) (usdt_cny : Option ℚ),
        (calculate_metrics (some y) none usdt_cny).map Metrics.gold_premium
          = some 0) := by
  constructor
  · intro y g usdt_cny h1 h2 h3
    simp [calculate_metrics, h1, h2, h3]
  · intro y usdt_cny
    rcases h1 : decide (y.gold_intl ≠ 0 ∧ y.cny ≠ 0) with _ | _
    · simp at h1
      simp [calculate_metrics, h1]
    · simp at h1
      simp [calculate_metrics, h1]

/-- Witness for `gold_premium_formula` at onshore 7.20, Shanghai gold 650,
international gold 2000. -/
theorem gold_premium_formula_witness :
    (calculate_metrics (some ⟨72/10, 722/100, 78/10, 2000⟩) (some 650)
        none).map Metrics.gold_premium
      = some ((650 : ℚ) / (72/10) * 31.1035 - 2000) ∧
    (calculate_metrics (some ⟨72/10, 722/100, 78/10, 2000⟩) none none).map
        Metrics.gold_premium = some 0 :=
  ⟨gold_premium_formula.1 ⟨72/10, 722/100, 78/10, 2000⟩ 650 none
      (by norm_num) (by norm_num) (by norm_num),
   gold_premium_formula.2 ⟨72/10, 722/100, 78/10, 2000⟩ none⟩

/-- C5 (counterexample): the claim fails at a usable snapshot with positive
offshore rate 7 and a USDT price that is present but zero: the truthiness
guard `if usdt_cny and cnh:` treats the zero price like an absent one and
leaves the premium at 0, while the claimed formula gives
((0 − 7) ÷ 7) × 100 = −100 ≠ 0, and the sign fails to match
usdtPrice < offshoreRate. -/
theorem usdt_premium_claim_counterexample :
    (calculate_metrics (some ⟨7, 7, 78/10, 2000⟩) none (some 0)).map
        Metrics.usdt_premium = some 0 ∧
    (0 : ℚ) < 7 ∧
    ((0 : ℚ) - 7) / 7 * 100 ≠ 0 := by
  refine ⟨?_, by norm_num, by norm_num⟩
  norm_num [calculate_metrics]

/-- C5 (amended): for every usable snapshot with a positive offshore rate,
the USDT premium equals ((usdtPrice − offshoreRate) ÷ offshoreRate) × 100
when the USDT price is present and nonzero — its sign then matches the
comparison of usdtPrice against the offshore rate — and is exactly 0 when
the USDT price is absent. -/
theorem usdt_premium_formula :
    (∀ (y : YahooData) (u : ℚ) (sh_gold : Option ℚ),
        0 < y.cnh → u ≠ 0 →
        ((calculate_metrics (some y) sh_gold (some u)).map Metrics.usdt_premium
            = some ((u - y.cnh) / y.cnh * 100)) ∧
        (y.cnh < u → 0 < (u - y.cnh) / y.cnh * 100) ∧
        (u < y.cnh → (u - y.cnh) / y.cnh * 100 < 0)) ∧
    (∀ (y : YahooData) (sh_gold : Option ℚ),
        (calculate_metrics (some y) sh_gold none).map Metrics.usdt_premium
          = some 0) := by
  constructor
  · intro y u sh_gold hpos hu
    have hcnh : y.cnh ≠ 0 := ne_of_gt hpos
    refine ⟨by simp [calculate_metrics, hu, hcnh], ?_, ?_⟩
    · intro hlt
      have hsub : 0 < u - y.cnh := sub_pos.mpr hlt
      have := div_pos hsub hpos
      nlinarith
    · intro hlt
      have hsub : u - y.cnh < 0 := sub_neg.mpr hlt
      have := div_neg_of_neg_of_pos hsub hpos
      nlinarith
  · intro y sh_gold
    simp [calculate_metrics]

/-- Witness for `usdt_premium_formula` at offshore 7.4, USDT price 7.5. -/
theorem usdt_premium_formula_witness :
    (calculate_metrics (some ⟨71/10, 37/5, 78/10, 2000⟩) none
        (some (15/2))).map Metrics.usdt_premium
      = some (((15/2 : ℚ) - 37/5) / (37/5) * 100) ∧
    0 < ((15/2 : ℚ) - 37/5) / (37/5) * 100 ∧
    (calculate_metrics (some ⟨71/10, 37/5, 78/10, 2000⟩) none none).map
        Metrics.usdt_premium = some 0 :=
  ⟨(usdt_premium_formula.1 ⟨71/10, 37/5, 78/10, 2000⟩ (15/2) none
      (by norm_num) (by norm_num)).1,
   (usdt_premium_formula.1 ⟨71/10, 37/5, 78/10, 2000⟩ (15/2) none
      (by norm_num) (by norm_num)).2.1 (by norm_num),
   usdt_premium_formula.2 ⟨71/10, 37/5, 78/10, 2000⟩ none⟩

/-- C6: both quote fetches are total toward their callers: every failure
mode — transport error or timeout, non-200 status, malformed payload (no
parsable cell, undecodable body, or empty advertisement list) — is converted
to None instead of an escaping exception. -/
theorem fetchers_never_raise :
    get_shanghai_gold .transportError = none ∧
    (∀ (s : Nat) (rows : List HtmlRow), s ≠ 200 →
        get_shanghai_gold (.response s rows) = none) ∧
    (∀ (rows : List HtmlRow), (∀ row ∈ rows, ∀ c ∈ row.cols, c = none) →
        get_shanghai_gold (.response 200 rows) = none) ∧
    get_binance_usdt_cny .transportError = none ∧
    (∀ (s : Nat) (p : BinancePayload), s ≠ 200 →
        get_binance_usdt_cny (.response s p) = none) ∧
    (∀ (s : Nat),
        get_binance_usdt_cny (.response s BinancePayload.malformed) = none) ∧
    (∀ (s : Nat),
        get_binance_usdt_cny (.response s (.advs [])) = none) := by
  refine ⟨rfl, ?_, ?_, rfl, ?_, ?_, ?_⟩
  · intro s rows h
    simp [get_shanghai_gold, h]
  · intro rows h
    have hcells : ∀ row ∈ rows, ∀ c ∈ row.cols, ∀ w, c = some w →
        ¬(400 < w ∧ w < 1000) := by
      intro row hr c hc w hw
      rw [h row hr c hc] at hw
      cases hw
    simp [get_shanghai_gold, scanRows_none rows hcells]
  · intro s p h
    simp [get_binance_usdt_cny, h]
  · intro s
    by_cases h : s = 200 <;> simp [get_binance_usdt_cny, h]
  · intro s
    by_cases h : s = 200 <;> simp [get_binance_usdt_cny, h]

/-- Witness for `fetchers_never_raise`: a 404 page, a marker row whose only
cell does not parse, and a malformed Binance body. -/
theorem fetchers_never_raise_witness :
    get_shanghai_gold (.response 404 []) = none ∧
    get_shanghai_gold (.response 200 [⟨true, [none]⟩]) = none ∧
    get_binance_usdt_cny (.response 500 BinancePayload.malformed) = none :=
  ⟨fetchers_never_raise.2.1 404 [] (by norm_num),
   fetchers_never_raise.2.2.1 [⟨true, [none]⟩] (by simp),
   fetchers_never_raise.2.2.2.2.1 500 BinancePayload.malformed (by norm_num)⟩

/-- C7: the Shanghai-gold scan applies the 400–1000 CNY/gram sanity filter:
every returned value lies strictly inside the range; a parsed cell value
outside the range is rejected and scanning continues with the remaining
cells; and when no cell passes the filter the fetch returns None. -/
theorem shanghai_gold_sanity_filter :
    (∀ (resp : HttpResult (List HtmlRow)) (v : ℚ),
        get_shanghai_gold resp = some v → 400 < v ∧ v < 1000) ∧
    (∀ (v : ℚ) (cs : List (Option ℚ)), ¬(400 < v ∧ v < 1000) →
        scanCols (some v :: cs) = scanCols cs) ∧
    (∀ (rows : List HtmlRow),
        (∀ row ∈ rows, ∀ c ∈ row.cols, ∀ w, c = some w →
          ¬(400 < w ∧ w < 1000)) →
        get_shanghai_gold (.response 200 rows) = none) := by
  refine ⟨get_shanghai_gold_range, ?_, ?_⟩
  · intro v cs h
    simp [scanCols, h]
  · intro rows h
    simp [get_shanghai_gold, scanRows_none rows h]

/-- Witness for `shanghai_gold_sanity_filter`: a page whose marker row holds
the value 650 is accepted and a parsed 1200 is skipped. -/
theorem shanghai_gold_sanity_filter_witness :
    ((400 : ℚ) < 650 ∧ (650 : ℚ) < 1000) ∧
    scanCols [some 1200, some 650] = scanCols [some 650] :=
  ⟨shanghai_gold_sanity_filter.1 (.response 200 [⟨true, [some 650]⟩]) 650
      (by norm_num [get_shanghai_gold, scanRows, scanCols]),
   shanghai_gold_sanity_filter.2.1 1200 [some 650] (by norm_num)⟩

/-- C8: the Shanghai-gold price is acquired through a fallback chain of
three sources in priority order — the comma-delimited quote-string API
(field 0, falling back to field 7 when field 0 is exactly zero), the
tilde-delimited quote-string API, and the HTML page scan — each result
independently subjected to the same sanity filter, the first passing result
returned.  The first two sources and the chain are modelled from the spec
(they appear only in repository revisions not included under src/); the
third is `get_shanghai_gold` from src. -/
theorem shanghai_gold_chain_priority :
    (∀ (offset : Nat) (r1 r2 : HttpResult (List ℚ))
        (r3 : HttpResult (List HtmlRow)) (v : ℚ),
        commaSource r1 = some v → plausGold v = true →
        shanghai_gold_chain offset r1 r2 r3 = some v) ∧
    (∀ (offset : Nat) (r1 r2 : HttpResult (List ℚ))
        (r3 : HttpResult (List HtmlRow)) (v : ℚ),
        (∀ w, commaSource r1 = some w → plausGold w = false) →
        tildeSource offset r2 = some v → plausGold v = true →
        shanghai_gold_chain offset r1 r2 r3 = some v) ∧
    (∀ (offset : Nat) (r1 r2 : HttpResult (List ℚ))
        (r3 : HttpResult (List HtmlRow)),
        (∀ w, commaSource r1 = some w → plausGold w = false) →
        (∀ w, tildeSource offset r2 = some w → plausGold w = false) →
        shanghai_gold_chain offset r1 r2 r3 = get_shanghai_gold r3) ∧
    (∀ (fields : List ℚ), fields.get? 0 = some 0 →
        commaSource (.response 200 fields) = fields.get? 7) ∧
    (∀ (fields : List ℚ) (f0 : ℚ), fields.get? 0 = some f0 → f0 ≠ 0 →
        commaSource (.response 200 fields) = some f0) := by
  refine ⟨?_, ?_, ?_, ?_, ?_⟩
  · intro offset r1 r2 r3 v h1 hp
    rw [shanghai_gold_chain, h1, fallbackChain_pass _ _ _ hp]
  · intro offset r1 r2 r3 v h1 h2 hp
    rw [shanghai_gold_chain, fallbackChain_skip _ _ _ h1, h2,
      fallbackChain_pass _ _ _ hp]
  · intro offset r1 r2 r3 h1 h2
    rw [shanghai_gold_chain, fallbackChain_skip _ _ _ h1,
      fallbackChain_skip _ _ _ h2]
    rcases hg : get_shanghai_gold r3 with _ | v
    · rfl
    · have hr := get_shanghai_gold_range r3 v hg
      exact fallbackChain_pass _ _ _ (decide_eq_true hr)
  · intro fields h
    simp only [List.get?_eq_getElem?] at h ⊢
    simp [commaSource, h]
  · intro fields f0 h h0
    simp only [List.get?_eq_getElem?] at h
    simp [commaSource, h, h0]

/-- Witness for `shanghai_gold_chain_priority`: the comma-delimited source
returns 650, which passes the filter and short-circuits the chain. -/
theorem shanghai_gold_chain_priority_witness :
    shanghai_gold_chain 0 (.response 200 [650]) HttpResult.transportError
        HttpResult.transportError = some 650 :=
  shanghai_gold_chain_priority.1 0 (.response 200 [650])
    HttpResult.transportError HttpResult.transportError 650
    (by norm_num [commaSource]) (by norm_num [plausGold])

/-- C9: the snapshot cache memoizes the acquisition step with a fixed TTL
(modelled from the spec, the memoization being streamlit's `st.cache_data`
decorator): any two calls within the TTL return the identical cached bundle
with the cache unchanged and no fresh fetch; a call after TTL expiry
performs exactly one fresh fetch (replacing the bundle on success, emptying
the cache on failure); and a call right after an explicit clear always
performs a fresh fetch and returns exactly the fresh fetch's outcome,
independent of the pre-clear bundle. -/
theorem snapshot_cache_ttl :
    (∀ (b : YahooData) (t t1 t2 ttl : ℚ) (f1 f2 : Option YahooData),
        t1 - t < ttl → t2 - t < ttl →
        getOrFetch f1 ttl t1 ⟨some (b, t)⟩ = (some b, ⟨some (b, t)⟩, false) ∧
        getOrFetch f2 ttl t2 ⟨some (b, t)⟩ = (some b, ⟨some (b, t)⟩, false)) ∧
    (∀ (b bNew : YahooData) (t now ttl : ℚ), ¬ (now - t < ttl) →
        getOrFetch (some bNew) ttl now ⟨some (b, t)⟩
            = (some bNew, ⟨some (bNew, now)⟩, true) ∧
        getOrFetch none ttl now ⟨some (b, t)⟩ = (none, ⟨none⟩, true)) ∧
    (∀ (c : SnapshotCache) (f : Option YahooData) (ttl now : ℚ),
        getOrFetch f ttl now (invalidate c) = getOrFetch f ttl now ⟨none⟩ ∧
        (getOrFetch f ttl now (invalidate c)).1 = f ∧
        (getOrFetch f ttl now (invalidate c)).2.2 = true) := by
  refine ⟨?_, ?_, ?_⟩
  · intro b t t1 t2 ttl f1 f2 h1 h2
    constructor <;> simp [getOrFetch, h1, h2]
  · intro b bNew t now ttl h
    constructor <;> simp [getOrFetch, h]
  · intro c f ttl now
    refine ⟨rfl, ?_, ?_⟩ <;> cases f <;> rfl

/-- Witness for `snapshot_cache_ttl`: a bundle cached at time 0 is returned
unchanged, without a fetch, at times 10 and 20 under the 60-second TTL. -/
theorem snapshot_cache_ttl_witness :
    getOrFetch none cacheTTL 10 ⟨some (⟨7, 7, 7, 2000⟩, 0)⟩
        = (some ⟨7, 7, 7, 2000⟩, ⟨some (⟨7, 7, 7, 2000⟩, 0)⟩, false) ∧
    getOrFetch none cacheTTL 20 ⟨some (⟨7, 7, 7, 2000⟩, 0)⟩
        = (some ⟨7, 7, 7, 2000⟩, ⟨some (⟨7, 7, 7, 2000⟩, 0)⟩, false) :=
  snapshot_cache_ttl.1 ⟨7, 7, 7, 2000⟩ 0 10 20 cacheTTL none none
    (by norm_num [cacheTTL]) (by norm_num [cacheTTL])

/-- C10: in the composed pipeline of `main`, the funding-rate source always
returns None, and `main` replaces the absent value by the hardcoded default
2.5 before classification; since 2.5 is not above 10 the squeeze rule never
fires, so the purple liquidity-squeeze report is never produced by the
program as written, whatever the metrics. -/
theorem main_never_liquidity_squeeze (metrics : Option Metrics) :
    get_cnh_hibor = none ∧
    hibor_val_for_logic get_cnh_hibor = 2.5 ∧
    analyze_risk metrics (some (hibor_val_for_logic get_cnh_hibor))
        ≠ hiborSqueezeReport ∧
    (analyze_risk metrics (some (hibor_val_for_logic get_cnh_hibor))).color
        ≠ "purple" := by
  have hv : hibor_val_for_logic get_cnh_hibor = 2.5 := rfl
  have hcolor : (analyze_risk metrics
      (some (hibor_val_for_logic get_cnh_hibor))).color ≠ "purple" := by
    rw [hv]
    have h25 : ¬ ((2.5 : ℚ) > 10) := by norm_num
    cases metrics with
    | none =>
      intro hc
      simp [analyze_risk, normalReport] at hc
    | some m =>
      simp only [analyze_risk, decide_eq_false h25]
      split
      · simp at *
      · split
        · intro hc
          simp [breakoutReport] at hc
        · split
          · intro hc
            simp [warningReport] at hc
          · intro hc
            simp [normalReport] at hc
  refine ⟨rfl, hv, ?_, hcolor⟩
  intro contra
  exact hcolor (by rw [contra]; rfl)

/-- Witness for `main_never_liquidity_squeeze` at the absent-metrics
input. -/
theorem main_never_liquidity_squeeze_witness :
    get_cnh_hibor = none ∧
    hibor_val_for_logic get_cnh_hibor = 2.5 ∧
    analyze_risk none (some (hibor_val_for_logic get_cnh_hibor))
        ≠ hiborSqueezeReport ∧
    (analyze_risk none (some (hibor_val_for_logic get_cnh_hibor))).color
        ≠ "purple" :=
  main_never_liquidity_squeeze none

end CnhMonitor
